import Mathlib

/-!
Shallow embedding of the `insta_cli` server core (Python) in Lean 4.

The embedding covers:
* `server/instagram/parsers.py` — the message/thread normalization layer;
* `server/instagram/messages.py` — the DM operations facade;
* `server/instagram/auth.py`, `session.py`, `client.py` — the auth/session
  state machine;
* the relevant request handlers of `server/main.py` (login, inbox, thread,
  send-to-user, user search).

Python conventions are modelled explicitly:
* `Optional[T]` becomes `Option T`;
* Python truthiness of an optional string (`None` and `""` are falsy) is the
  predicate `strTruthy`; truthiness of an optional int (`None` and `0` are
  falsy) is `intTruthy`; `datetime` values are opaque (`Nat`) and always
  truthy, so `if not ts` on an optional datetime is `Option.isNone`;
* `a or b` on strings/options is `truthyOr`;
* exceptions become `Except` / explicit result values;
* calls into the upstream `instagrapi.Client` are recorded in an explicit
  trace (`List CapCall` / `List AuthEvent`) so that "no upstream call is
  attempted" is a provable statement.
-/

/-- Python truthiness of an `Optional[str]`: `None` and `""` are falsy. -/
def strTruthy : Option String → Bool
  | none => false
  | some s => s ≠ ""

/-- Python truthiness of an `Optional[int]`: `None` and `0` are falsy. -/
def intTruthy : Option Int → Bool
  | none => false
  | some n => n ≠ 0

/-- Python `a or dflt` for `a : Optional[str]` in a string position:
the value of `a` when truthy, otherwise `dflt`. -/
def truthyOr (a : Option String) (dflt : String) : String :=
  match a with
  | none => dflt
  | some s => if s = "" then dflt else s

/-- Python `str(x) if x else None` for `x : Optional[str]`. -/
def truthyStrOpt (a : Option String) : Option String :=
  match a with
  | none => none
  | some s => if s = "" then none else some s

/-! ## Upstream (instagrapi) record shapes, as consumed by `parsers.py`.

Only the fields the parsers read are modelled.  `datetime` timestamps are
opaque `Nat`s; URL objects are carried as the string `str(url)` yields. -/

/-- An instagrapi user record (`client.account_info()`,
`client.user_info_by_username(...)`, thread participants). -/
structure IGUserInfo where
  pk : Int
  username : String
  full_name : Option String
  profile_pic_url : Option String
  is_private : Bool
  is_verified : Bool
  deriving DecidableEq, Repr

/-- The media attachment of an instagrapi `DirectMessage` (`msg.media`). -/
structure IGMedia where
  video_url : Option String
  thumbnail_url : Option String
  deriving DecidableEq, Repr

/-- The link attachment of an instagrapi `DirectMessage` (`msg.link`). -/
structure IGLink where
  url : Option String
  title : Option String
  deriving DecidableEq, Repr

/-- An instagrapi `DirectMessage` record, restricted to the fields
`parse_message` reads. -/
structure IGDirectMessage where
  id : String
  user_id : Option Int
  timestamp : Nat
  item_type : Option String
  text : Option String
  media : Option IGMedia
  link : Option IGLink
  deriving DecidableEq, Repr

/-- An instagrapi `DirectThread` record, restricted to the fields the
parsers read.  `thread.messages` may be `None` or a list in Python; both
behave identically in this code (`or []` / truthiness), so a plain list is
used, with `None ↦ []`. -/
structure IGDirectThread where
  id : String
  pk : String
  thread_title : Option String
  users : List IGUserInfo
  messages : List IGDirectMessage
  last_activity_at : Option Nat
  is_group : Option Bool
  muted : Option Bool
  has_newer : Option Bool
  deriving DecidableEq, Repr

/-! ## Canonical (Pydantic) models, `server/models/`. -/

/-- `models.user_models.User`. -/
structure User where
  pk : String
  username : String
  full_name : String
  profile_pic_url : Option String
  is_private : Bool
  is_verified : Bool
  deriving DecidableEq, Repr

/-- `models.user_models.UserShort`. -/
structure UserShort where
  pk : String
  username : String
  full_name : String
  profile_pic_url : Option String
  deriving DecidableEq, Repr

/-- `models.message_models.DirectMessage`. -/
structure DirectMessage where
  id : String
  user_id : Option String
  timestamp : Nat
  item_type : String
  text : Option String
  is_sent_by_viewer : Bool
  media_url : Option String
  media_type : Option String
  link_url : Option String
  link_title : Option String
  deriving DecidableEq, Repr

/-- `models.message_models.DirectThread`. -/
structure DirectThread where
  id : String
  pk : String
  thread_title : String
  users : List UserShort
  last_activity_at : Option Nat
  is_group : Bool
  is_muted : Bool
  has_unread : Bool
  messages : List DirectMessage
  deriving DecidableEq, Repr

/-- `models.message_models.DirectThreadPreview`. -/
structure DirectThreadPreview where
  id : String
  pk : String
  thread_title : String
  users : List UserShort
  last_activity_at : Option Nat
  is_group : Bool
  is_muted : Bool
  has_unread : Bool
  last_message_text : Option String
  last_message_type : Option String
  last_message_timestamp : Option Nat
  deriving DecidableEq, Repr

/-! ## `server/instagram/parsers.py` -/

/-- `parsers.parse_user`. -/
def parse_user (u : IGUserInfo) : User :=
  { pk := toString u.pk
    username := u.username
    full_name := truthyOr u.full_name ""
    profile_pic_url := truthyStrOpt u.profile_pic_url
    is_private := u.is_private
    is_verified := u.is_verified }

/-- `parsers.parse_user_short`. -/
def parse_user_short (u : IGUserInfo) : UserShort :=
  { pk := toString u.pk
    username := u.username
    full_name := truthyOr u.full_name ""
    profile_pic_url := truthyStrOpt u.profile_pic_url }

/-- `parsers.parse_message`. -/
def parse_message (msg : IGDirectMessage) (logged_in_user_pk : Option String) :
    DirectMessage :=
  let is_sent_by_viewer :=
    if strTruthy logged_in_user_pk ∧ intTruthy msg.user_id then
      decide ((msg.user_id.map toString) = logged_in_user_pk)
    else
      false
  let media_type : Option String :=
    msg.media.map fun m => if strTruthy m.video_url then "video" else "photo"
  let media_url : Option String :=
    msg.media.map fun m => truthyOr m.video_url (truthyOr m.thumbnail_url "")
  let link_url : Option String :=
    if msg.item_type = some "link" then msg.link.bind (·.url) else none
  let link_title : Option String :=
    if msg.item_type = some "link" then msg.link.bind (·.title) else none
  { id := msg.id
    user_id := if intTruthy msg.user_id then msg.user_id.map toString else none
    timestamp := msg.timestamp
    item_type := truthyOr msg.item_type "unknown"
    text := msg.text
    is_sent_by_viewer := is_sent_by_viewer
    media_url := media_url
    media_type := media_type
    link_url := link_url
    link_title := link_title }

/-- Thread title derivation shared by `parse_thread` and
`parse_thread_preview`: upstream title if truthy, else the participants'
usernames joined with `", "` (when there are participants). -/
def threadTitle (thread : IGDirectThread) (users : List UserShort) : String :=
  let t := truthyOr thread.thread_title ""
  if t = "" ∧ users ≠ [] then
    String.intercalate ", " (users.map (·.username))
  else t

/-- `parsers.parse_thread`. -/
def parse_thread (thread : IGDirectThread) (logged_in_user_pk : Option String) :
    DirectThread :=
  let users := thread.users.map parse_user_short
  { id := thread.id
    pk := thread.pk
    thread_title := threadTitle thread users
    users := users
    last_activity_at := thread.last_activity_at
    is_group := thread.is_group.getD (users.length > 1)
    is_muted := thread.muted.getD false
    has_unread := thread.has_newer.getD false
    messages := thread.messages.map (parse_message · logged_in_user_pk) }

/-- The `type_previews` lookup table inside `parse_thread_preview`
(`dict.get` returning `none` on a missing key). -/
def type_previews (t : String) : Option String :=
  if t = "media" then some "Photo"
  else if t = "video" then some "Video"
  else if t = "reel_share" then some "Shared Reel"
  else if t = "story_share" then some "Shared Story"
  else if t = "media_share" then some "Shared Post"
  else if t = "voice_media" then some "Voice Message"
  else if t = "animated_media" then some "GIF"
  else if t = "link" then some "Link"
  else if t = "like" then some "Liked"
  else none

/-- `parsers.parse_thread_preview`. -/
def parse_thread_preview (thread : IGDirectThread) : DirectThreadPreview :=
  let users := thread.users.map parse_user_short
  let base_ts := thread.last_activity_at
  let info : Option String × Option String × Option Nat :=
    match thread.messages with
    | [] => (none, none, base_ts)
    | last_msg :: _ =>
      let last_msg_type := truthyOr last_msg.item_type "unknown"
      let ts := if base_ts.isNone then some last_msg.timestamp else base_ts
      let text :=
        if strTruthy last_msg.text then last_msg.text.getD ""
        else (type_previews last_msg_type).getD ("[" ++ last_msg_type ++ "]")
      (some text, some last_msg_type, ts)
  { id := thread.id
    pk := thread.pk
    thread_title := threadTitle thread users
    users := users
    last_activity_at := thread.last_activity_at
    is_group := thread.is_group.getD (users.length > 1)
    is_muted := thread.muted.getD false
    has_unread := thread.has_newer.getD false
    last_message_text := info.1
    last_message_type := info.2.1
    last_message_timestamp := info.2.2 }

/-! ## `server/instagram/messages.py` — the DM operations facade.

The upstream `instagrapi.Client` is an opaque capability; it is modelled as
a record of response oracles, and every call made to it is recorded in a
`List CapCall` trace so that "no upstream call was attempted" is provable. -/

/-- One call into the upstream capability. -/
inductive CapCall where
  | direct_threads (amount : Int)
  | direct_thread (thread_id : Int) (amount : Int)
  | direct_answer (thread_id : Int) (text : String)
  | user_id_from_username (username : String)
  | direct_send (text : String) (user_ids : List Int)
  | user_info_by_username (username : String)
  deriving DecidableEq, Repr

/-- Response oracles for the upstream capability.  `user_info_by_username`
may fail (any exception), which `search_user` swallows; the other calls are
modelled at their success behaviour, which the claims under study never
depend on. -/
structure Upstream where
  direct_threads : Int → List IGDirectThread
  direct_thread : Int → Int → IGDirectThread
  direct_answer : Int → String → IGDirectMessage
  user_id_from_username : String → Int
  direct_send : String → List Int → IGDirectMessage
  user_info_by_username : String → Except String IGUserInfo

/-- Failures of a facade operation: `LoginRequired("Not logged in")`, or the
`ValueError` from `int(thread_id)` on a non-numeric thread id. -/
inductive OpError where
  | loginRequired
  | valueError (s : String)
  deriving DecidableEq, Repr

/-- Accumulate a decimal digit string, failing on a non-digit. -/
def digitsToNat : List Char → Nat → Option Nat
  | [], acc => some acc
  | c :: cs, acc =>
    if c.isDigit then digitsToNat cs (acc * 10 + (c.toNat - 48)) else none

/-- Python `int(s)`: an optional sign followed by decimal digits, raising
`ValueError` (`none`) otherwise. -/
def pyInt (s : String) : Option Int :=
  match s.data with
  | '-' :: c :: cs =>
    if c.isDigit then (digitsToNat (c :: cs) 0).map (fun n => -(n : Int)) else none
  | '+' :: c :: cs =>
    if c.isDigit then (digitsToNat (c :: cs) 0).map (fun n => (n : Int)) else none
  | c :: cs =>
    if c.isDigit then (digitsToNat (c :: cs) 0).map (fun n => (n : Int)) else none
  | [] => none

/-- `messages.get_inbox`. -/
def msg_get_inbox (client : Upstream) (logged_in_user : Option User)
    (amount : Int) : Except OpError (List DirectThreadPreview) × List CapCall :=
  match logged_in_user with
  | none => (.error .loginRequired, [])
  | some _ =>
    (.ok ((client.direct_threads amount).map parse_thread_preview),
     [.direct_threads amount])

/-- `messages.get_thread`.  Python `int(thread_id)` is modelled by
`pyInt`, raising `ValueError` (`none`) on a non-numeric string. -/
def msg_get_thread (client : Upstream) (logged_in_user : Option User)
    (thread_id : String) (amount : Int) :
    Except OpError DirectThread × List CapCall :=
  match logged_in_user with
  | none => (.error .loginRequired, [])
  | some u =>
    match pyInt thread_id with
    | none => (.error (.valueError thread_id), [])
    | some tid =>
      (.ok (parse_thread (client.direct_thread tid amount) (some u.pk)),
       [.direct_thread tid amount])

/-- `messages.send_message`. -/
def msg_send_message (client : Upstream) (logged_in_user : Option User)
    (thread_id : String) (text : String) :
    Except OpError DirectMessage × List CapCall :=
  match logged_in_user with
  | none => (.error .loginRequired, [])
  | some u =>
    match pyInt thread_id with
    | none => (.error (.valueError thread_id), [])
    | some tid =>
      (.ok (parse_message (client.direct_answer tid text) (some u.pk)),
       [.direct_answer tid text])

/-- `messages.send_message_to_user`. -/
def msg_send_message_to_user (client : Upstream) (logged_in_user : Option User)
    (username : String) (text : String) :
    Except OpError DirectMessage × List CapCall :=
  match logged_in_user with
  | none => (.error .loginRequired, [])
  | some u =>
    let user_id := client.user_id_from_username username
    (.ok (parse_message (client.direct_send text [user_id]) (some u.pk)),
     [.user_id_from_username username, .direct_send text [user_id]])

/-- `messages.search_user` (returns `None` on any lookup failure). -/
def msg_search_user (client : Upstream) (logged_in_user : Option User)
    (username : String) : Except OpError (Option User) × List CapCall :=
  match logged_in_user with
  | none => (.error .loginRequired, [])
  | some _ =>
    match client.user_info_by_username username with
    | .ok info => (.ok (some (parse_user info)), [.user_info_by_username username])
    | .error _ => (.ok none, [.user_info_by_username username])

/-! ## `server/instagram/session.py` — the session store. -/

/-- The durable session blob (`.ig_session.json`): present or absent, with
opaque contents. -/
structure SessionStore where
  blob : Option String
  deriving DecidableEq, Repr

/-- `session.save_session`: best-effort overwrite of the blob; an I/O
failure (`io_ok = false`) is logged and swallowed, leaving the store
unchanged. -/
def save_session (store : SessionStore) (dump : String) (io_ok : Bool) :
    SessionStore :=
  if io_ok then { blob := some dump } else store

/-- `session.load_session`: `False` if no blob exists; otherwise the result
of `client.load_settings` (`parse_ok`), with a parse failure swallowed. -/
def load_session (store : SessionStore) (parse_ok : Bool) : Bool :=
  store.blob.isSome && parse_ok

/-- `session.delete_session`: best-effort removal of the blob. -/
def delete_session (store : SessionStore) (io_ok : Bool) : SessionStore :=
  if io_ok then { blob := none } else store

/-! ## `server/instagram/auth.py` — the auth state machine. -/

/-- Events of a login attempt worth tracing: the two probe calls, a fresh
upstream login (carrying the password that was sent), and a session save. -/
inductive AuthEvent where
  | getTimelineFeed
  | accountInfo
  | clientLogin (username : String) (password : String)
  | sessionSave
  deriving DecidableEq, Repr

/-- Outcome of the session-validity probe
(`client.get_timeline_feed()` then `client.account_info()`): success with
the account record, or an exception from either call (both `LoginRequired`
and any other exception fall through to a fresh login). -/
inductive ProbeResult where
  | ok (info : IGUserInfo)
  | timelineFail
  | accountFail
  deriving DecidableEq, Repr

/-- Outcome of the fresh-login path: `client.login` succeeding and
`client.account_info()` yielding `info` (with `dump` the settings blob that
`save_session` would write), one of the four classified login exceptions,
any other login exception, or a failure of the follow-up `account_info`. -/
inductive FreshLoginOutcome where
  | ok (info : IGUserInfo) (dump : String)
  | badPassword
  | challengeRequired
  | twoFactorRequired
  | pleaseWait
  | otherLoginError (msg : String)
  | accountInfoError (msg : String)
  deriving DecidableEq, Repr

/-- The environment a login attempt runs against: whether a stored blob
parses, the probe outcome, the fresh-login outcome, and whether the session
save succeeds. -/
structure AuthEnv where
  load_parse_ok : Bool
  probe : ProbeResult
  fresh : FreshLoginOutcome
  save_io_ok : Bool
  deriving DecidableEq, Repr

/-- The `(success, error_message, user)` triple returned by `auth.login`,
together with the session store it leaves behind and the event trace. -/
structure AuthResult where
  success : Bool
  error : Option String
  user : Option User
  store : SessionStore
  trace : List AuthEvent
  deriving DecidableEq, Repr

/-- The fresh-login section of `auth.login` (lines 47-70), entered with the
events `pre` already performed. -/
def freshLogin (env : AuthEnv) (store : SessionStore)
    (username password : String) (pre : List AuthEvent) : AuthResult :=
  match env.fresh with
  | .ok info dump =>
    { success := true, error := none, user := some (parse_user info)
      store := save_session store dump env.save_io_ok
      trace := pre ++ [.clientLogin username password, .accountInfo, .sessionSave] }
  | .badPassword =>
    { success := false, error := some "Invalid password", user := none
      store := store, trace := pre ++ [.clientLogin username password] }
  | .challengeRequired =>
    { success := false
      error := some "Challenge required - please verify your account in the Instagram app"
      user := none, store := store
      trace := pre ++ [.clientLogin username password] }
  | .twoFactorRequired =>
    { success := false
      error := some "Two-factor authentication required - not yet supported"
      user := none, store := store
      trace := pre ++ [.clientLogin username password] }
  | .pleaseWait =>
    { success := false
      error := some "Rate limited - please wait a few minutes and try again"
      user := none, store := store
      trace := pre ++ [.clientLogin username password] }
  | .otherLoginError msg =>
    { success := false, error := some msg, user := none
      store := store, trace := pre ++ [.clientLogin username password] }
  | .accountInfoError msg =>
    { success := false, error := some msg, user := none
      store := store, trace := pre ++ [.clientLogin username password, .accountInfo] }

/-- `auth.login`: try to restore and probe the saved session; on probe
success return the probed identity without any fresh login or save;
otherwise fall through to a fresh login. -/
def auth_login (env : AuthEnv) (store : SessionStore)
    (username password : String) : AuthResult :=
  if load_session store env.load_parse_ok then
    match env.probe with
    | .ok info =>
      { success := true, error := none, user := some (parse_user info)
        store := store, trace := [.getTimelineFeed, .accountInfo] }
    | .timelineFail => freshLogin env store username password [.getTimelineFeed]
    | .accountFail =>
      freshLogin env store username password [.getTimelineFeed, .accountInfo]
  else freshLogin env store username password []

/-! ## `server/instagram/client.py` — `InstagramClient`. -/

/-- The mutable state of `InstagramClient` that the claims concern:
`_logged_in_user`. -/
structure ClientState where
  logged_in_user : Option User
  deriving DecidableEq, Repr

/-- `InstagramClient.is_authenticated`. -/
def is_authenticated (st : ClientState) : Bool :=
  st.logged_in_user.isSome

/-- What `InstagramClient.login` returns and leaves behind. -/
structure ClientLoginResult where
  success : Bool
  error : Option String
  state : ClientState
  store : SessionStore
  trace : List AuthEvent
  deriving DecidableEq, Repr

/-- `InstagramClient.login`: delegate to `auth.login` and install the
returned user only on success. -/
def client_login (env : AuthEnv) (store : SessionStore) (st : ClientState)
    (username password : String) : ClientLoginResult :=
  let r := auth_login env store username password
  { success := r.success, error := r.error
    state := if r.success then { logged_in_user := r.user } else st
    store := r.store, trace := r.trace }

/-- `InstagramClient.logout`: delete the session blob (best-effort) and
clear the current user. -/
def client_logout (store : SessionStore) (io_ok : Bool) :
    ClientState × SessionStore :=
  ({ logged_in_user := none }, delete_session store io_ok)

/-! ## `server/main.py` — request handlers. -/

/-- `LoginRequest` (`models.api_models`): `password` and
`encrypted_password` are plain strings defaulting to `""`. -/
structure LoginRequest where
  username : String
  password : String
  encrypted_password : String
  deriving DecidableEq, Repr

/-- HTTP-level outcome of the login handler. -/
inductive LoginHttp where
  | ok (user : Option User) (message : String)
  | httpError (code : Nat) (detail : String)
  deriving DecidableEq, Repr

/-- Everything the login handler produces: the HTTP outcome, the client
state and session store it leaves behind, the `(username, password)` pairs
it passed to `instagram_client.login`, and the auth event trace. -/
structure LoginEndpointResult where
  http : LoginHttp
  state : ClientState
  store : SessionStore
  loginCalls : List (String × String)
  trace : List AuthEvent
  deriving DecidableEq, Repr

/-- The `POST /auth/login` handler (`main.login`).  `decrypt` is the
`crypto.decrypt_password` oracle: `none` models the `ValueError` raised
when decryption fails. -/
def login_endpoint (decrypt : String → Option String) (env : AuthEnv)
    (store : SessionStore) (st : ClientState) (req : LoginRequest) :
    LoginEndpointResult :=
  let pw : Except String String :=
    if req.encrypted_password ≠ "" then
      match decrypt req.encrypted_password with
      | some p => .ok p
      | none => .error "Failed to decrypt password"
    else if req.password ≠ "" then .ok req.password
    else .error "Either password or encrypted_password is required"
  match pw with
  | .error d =>
    { http := .httpError 400 d, state := st, store := store
      loginCalls := [], trace := [] }
  | .ok password =>
    let r := client_login env store st req.username password
    if r.success then
      { http := .ok r.state.logged_in_user "Login successful"
        state := r.state, store := r.store
        loginCalls := [(req.username, password)], trace := r.trace }
    else
      { http := .httpError 401 (truthyOr r.error "Login failed")
        state := r.state, store := r.store
        loginCalls := [(req.username, password)], trace := r.trace }

/-- HTTP-level outcome of `GET /inbox`: a success body, a
`success=False` body (generic exception), or the 401 produced by the
`LoginRequired` exception handler. -/
inductive InboxHttp where
  | ok (threads : List DirectThreadPreview)
  | fail (error : String)
  | unauthorized
  deriving DecidableEq, Repr

/-- The limit clamp `min(max(limit, 1), 100)` used by the inbox and thread
handlers. -/
def clamp_limit (limit : Int) : Int :=
  min (max limit 1) 100

/-- `str(e)` for the `ValueError` raised by `int(thread_id)`. -/
def valueErrorStr (s : String) : String :=
  "invalid literal for int with base 10: " ++ s

/-- The `GET /inbox` handler (`main.get_inbox`): clamp the limit into
`[1,100]`, then delegate. -/
def inbox_endpoint (client : Upstream) (st : ClientState) (limit : Int) :
    InboxHttp × List CapCall :=
  let limit2 := clamp_limit limit
  match msg_get_inbox client st.logged_in_user limit2 with
  | (.ok threads, tr) => (.ok threads, tr)
  | (.error .loginRequired, tr) => (.unauthorized, tr)
  | (.error (.valueError s), tr) => (.fail (valueErrorStr s), tr)

/-- HTTP-level outcome of `GET /thread/{thread_id}`. -/
inductive ThreadHttp where
  | ok (thread : DirectThread)
  | fail (error : String)
  | unauthorized
  deriving DecidableEq, Repr

/-- The `GET /thread/{thread_id}` handler (`main.get_thread`): clamp the
limit into `[1,100]`, then delegate. -/
def thread_endpoint (client : Upstream) (st : ClientState)
    (thread_id : String) (limit : Int) : ThreadHttp × List CapCall :=
  let limit2 := clamp_limit limit
  match msg_get_thread client st.logged_in_user thread_id limit2 with
  | (.ok thread, tr) => (.ok thread, tr)
  | (.error .loginRequired, tr) => (.unauthorized, tr)
  | (.error (.valueError s), tr) => (.fail (valueErrorStr s), tr)

/-- HTTP-level outcome of the two send handlers. -/
inductive SendHttp where
  | ok (message : DirectMessage)
  | fail (error : String)
  | unauthorized
  deriving DecidableEq, Repr

/-- The `POST /thread/{thread_id}/send` handler
(`main.send_message_to_thread`). -/
def send_thread_endpoint (client : Upstream) (st : ClientState)
    (thread_id : String) (text : String) : SendHttp × List CapCall :=
  match msg_send_message client st.logged_in_user thread_id text with
  | (.ok m, tr) => (.ok m, tr)
  | (.error .loginRequired, tr) => (.unauthorized, tr)
  | (.error (.valueError s), tr) => (.fail (valueErrorStr s), tr)

/-- Python `username.lstrip("@")` on the underlying character list:
remove every leading `'@'`. -/
def lstripAtAux : List Char → List Char
  | [] => []
  | c :: cs => if c = '@' then lstripAtAux cs else c :: cs

/-- Python `username.lstrip("@")`. -/
def lstripAt (s : String) : String :=
  ⟨lstripAtAux s.data⟩

/-- The `POST /send/{username}` handler (`main.send_message_to_user`):
strip leading `"@"`, then delegate. -/
def send_user_endpoint (client : Upstream) (st : ClientState)
    (username : String) (text : String) : SendHttp × List CapCall :=
  let uname := lstripAt username
  match msg_send_message_to_user client st.logged_in_user uname text with
  | (.ok m, tr) => (.ok m, tr)
  | (.error .loginRequired, tr) => (.unauthorized, tr)
  | (.error (.valueError s), tr) => (.fail (valueErrorStr s), tr)

/-- HTTP-level outcome of `GET /user/{username}`: the found user, a 404,
the 401 from `LoginRequired`, or a 500 with the upstream error string. -/
inductive SearchHttp where
  | ok (user : User)
  | notFound (detail : String)
  | unauthorized
  | serverError (detail : String)
  deriving DecidableEq, Repr

/-- The `GET /user/{username}` handler (`main.search_user`): strip leading
`"@"`, then delegate; an absent user becomes a 404. -/
def search_user_endpoint (client : Upstream) (st : ClientState)
    (username : String) : SearchHttp × List CapCall :=
  let uname := lstripAt username
  match msg_search_user client st.logged_in_user uname with
  | (.ok (some u), tr) => (.ok u, tr)
  | (.ok none, tr) =>
    (.notFound ("User " ++ uname ++ " not found"), tr)
  | (.error .loginRequired, tr) => (.unauthorized, tr)
  | (.error (.valueError s), tr) => (.serverError (valueErrorStr s), tr)

/-! ## Spec-side definitions and concrete sample inputs. -/

/-- Formalization of the claim wording for `is_sent_by_viewer`: "true iff
the Identity identifier is present and the upstream sender identifier,
compared as opaque strings, equals it".  Kept separate from
`parse_message` (which is translated from the source) so the two can be
compared. -/
def sentByViewerSpec (msg : IGDirectMessage) (pk : Option String) : Prop :=
  ∃ p, pk = some p ∧ ∃ uid, msg.user_id = some uid ∧ toString uid = p

/-- Formalization of the claim wording for handle normalization: "the given
handle with a leading `@` removed when one is present, and the given handle
unchanged otherwise".  Kept separate from `lstripAt` (which is translated
from the source `username.lstrip("@")`) so the two can be compared. -/
def stripOneLeadingAtSpec (s : String) : String :=
  match s.data with
  | '@' :: cs => ⟨cs⟩
  | _ => s

/-- A concrete upstream account record. -/
def sampleInfo : IGUserInfo :=
  { pk := 7, username := "alice", full_name := some "Alice"
    profile_pic_url := none, is_private := false, is_verified := false }

/-- The canonical user derived from `sampleInfo`. -/
def sampleUser : User := parse_user sampleInfo

/-- A concrete upstream message record. -/
def sampleIGMsg : IGDirectMessage :=
  { id := "m1", user_id := some 7, timestamp := 5, item_type := some "text"
    text := some "hi", media := none, link := none }

/-- A concrete upstream thread record. -/
def sampleThreadRec : IGDirectThread :=
  { id := "t1", pk := "t1", thread_title := none, users := [sampleInfo]
    messages := [sampleIGMsg], last_activity_at := some 9
    is_group := some false, muted := some false, has_newer := some false }

/-- A concrete upstream capability. -/
def sampleUpstream : Upstream :=
  { direct_threads := fun _ => [sampleThreadRec]
    direct_thread := fun _ _ => sampleThreadRec
    direct_answer := fun _ _ => sampleIGMsg
    user_id_from_username := fun _ => 7
    direct_send := fun _ _ => sampleIGMsg
    user_info_by_username := fun _ => .ok sampleInfo }

/-- A message record whose sender identifier is the integer `0` (falsy in
Python) — the input separating the source from the claim wording in C4. -/
def c4_msg : IGDirectMessage :=
  { id := "m0", user_id := some 0, timestamp := 0, item_type := none
    text := none, media := none, link := none }

/-- A media message carrying only a thumbnail URL. -/
def c5_msg : IGDirectMessage :=
  { id := "m5", user_id := none, timestamp := 0, item_type := some "media"
    text := none, media := some { video_url := none, thumbnail_url := some "thumb" }
    link := none }

/-- A message with the unrecognized item-type tag `"poll"`. -/
def c6_msg : IGDirectMessage :=
  { id := "m6", user_id := none, timestamp := 0, item_type := some "poll"
    text := none, media := none, link := none }

/-- A thread whose most recent message is an empty-text `reel_share` and
whose last-activity timestamp is absent. -/
def c7_reel_thread : IGDirectThread :=
  { id := "t7", pk := "t7", thread_title := some "T", users := []
    messages := [{ id := "m7", user_id := none, timestamp := 3
                   item_type := some "reel_share", text := none
                   media := none, link := none }]
    last_activity_at := none, is_group := some true, muted := none
    has_newer := none }

/-- A thread whose most recent message has the unlisted item-type `"poll"`
and whose last-activity timestamp is present. -/
def c7_poll_thread : IGDirectThread :=
  { id := "t8", pk := "t8", thread_title := some "T", users := []
    messages := [{ id := "m8", user_id := none, timestamp := 4
                   item_type := some "poll", text := none
                   media := none, link := none }]
    last_activity_at := some 11, is_group := some true, muted := none
    has_newer := none }

/-- A thread with no messages at all. -/
def c7_empty_thread : IGDirectThread :=
  { id := "t9", pk := "t9", thread_title := some "T", users := []
    messages := [], last_activity_at := some 12, is_group := some true
    muted := none, has_newer := none }

/-! ## Theorems. -/

/-- C1: every DM operation (fetch inbox, fetch thread, send to existing
thread, send to user by handle, search user) invoked while no current
Identity is set fails with `LoginRequired` and attempts no upstream
capability call (the call trace is empty); the corresponding HTTP handlers
accordingly answer 401 without an upstream call. -/
theorem dm_ops_unauthenticated_fail_without_upstream_call
    (client : Upstream) (amount limit : Int)
    (thread_id username text : String) :
    msg_get_inbox client none amount = (.error .loginRequired, []) ∧
    msg_get_thread client none thread_id amount = (.error .loginRequired, []) ∧
    msg_send_message client none thread_id text = (.error .loginRequired, []) ∧
    msg_send_message_to_user client none username text =
      (.error .loginRequired, []) ∧
    msg_search_user client none username = (.error .loginRequired, []) ∧
    inbox_endpoint client ⟨none⟩ limit = (.unauthorized, []) ∧
    thread_endpoint client ⟨none⟩ thread_id limit = (.unauthorized, []) ∧
    send_thread_endpoint client ⟨none⟩ thread_id text = (.unauthorized, []) ∧
    send_user_endpoint client ⟨none⟩ username text = (.unauthorized, []) ∧
    search_user_endpoint client ⟨none⟩ username = (.unauthorized, []) :=
  ⟨rfl, rfl, rfl, rfl, rfl, rfl, rfl, rfl, rfl, rfl⟩

/-- C8: the count passed to an inbox or thread fetch is
`min(max(requested, 1), 100)`, which is `1` for requests `≤ 1`, `100` for
requests `≥ 100`, and the request unchanged in between. -/
theorem fetch_count_clamped :
    (∀ n : Int, n ≤ 1 → clamp_limit n = 1) ∧
    (∀ n : Int, 100 ≤ n → clamp_limit n = 100) ∧
    (∀ n : Int, 1 ≤ n → n ≤ 100 → clamp_limit n = n) ∧
    (∀ (client : Upstream) (u : User) (limit : Int),
      (inbox_endpoint client ⟨some u⟩ limit).2 =
        [.direct_threads (clamp_limit limit)]) ∧
    (∀ (client : Upstream) (u : User) (thread_id : String) (n : Int)
      (limit : Int), pyInt thread_id = some n →
      (thread_endpoint client ⟨some u⟩ thread_id limit).2 =
        [.direct_thread n (clamp_limit limit)]) := by
  refine ⟨?_, ?_, ?_, ?_, ?_⟩
  · intro n h; unfold clamp_limit; omega
  · intro n h; unfold clamp_limit; omega
  · intro n h1 h2; unfold clamp_limit; omega
  · intro client u limit; rfl
  · intro client u thread_id n limit h
    simp [thread_endpoint, msg_get_thread, h]

/-- C8 witness: requesting 0 fetches 1, requesting 500 fetches 100,
requesting 50 fetches 50, and the thread handler passes the clamped count
upstream. -/
theorem fetch_count_clamped_witness :
    clamp_limit 0 = 1 ∧ clamp_limit 500 = 100 ∧ clamp_limit 50 = 50 ∧
    (thread_endpoint sampleUpstream ⟨some sampleUser⟩ "7" 500).2 =
      [.direct_thread 7 (clamp_limit 500)] :=
  ⟨fetch_count_clamped.1 0 (by decide),
   fetch_count_clamped.2.1 500 (by decide),
   fetch_count_clamped.2.2.1 50 (by decide) (by decide),
   fetch_count_clamped.2.2.2.2 sampleUpstream sampleUser "7" 7 500 (by decide)⟩

/-- C9 counterexample: the source strips every leading `@`
(`username.lstrip("@")`), not just one; on the handle `"@@alice"` the
upstream lookup uses `"alice"`, while the claim as stated predicts
`"@alice"`. -/
theorem handle_strip_counterexample :
    lstripAt "@@alice" = "alice" ∧
    stripOneLeadingAtSpec "@@alice" = "@alice" ∧
    ("alice" : String) ≠ "@alice" ∧
    (send_user_endpoint sampleUpstream ⟨some sampleUser⟩ "@@alice" "hi").2 =
      [.user_id_from_username "alice", .direct_send "hi" [7]] ∧
    (search_user_endpoint sampleUpstream ⟨some sampleUser⟩ "@@alice").2 =
      [.user_info_by_username "alice"] :=
  ⟨by decide, by decide, by decide, by decide, by decide⟩

/-- C9 (amended): the handle used for the upstream lookup in send-to-user
and user-search is the given handle with all leading `@` characters
removed: a handle not starting with `@` is unchanged, and a leading `@` is
dropped repeatedly. -/
theorem handle_strip_all_leading_at :
    (∀ (c : Char) (cs : List Char), c ≠ '@' →
      lstripAt ⟨c :: cs⟩ = ⟨c :: cs⟩) ∧
    (∀ cs : List Char, lstripAt ⟨'@' :: cs⟩ = lstripAt ⟨cs⟩) ∧
    (∀ (client : Upstream) (u : User) (username text : String),
      (send_user_endpoint client ⟨some u⟩ username text).2 =
        [.user_id_from_username (lstripAt username),
         .direct_send text
           [client.user_id_from_username (lstripAt username)]]) ∧
    (∀ (client : Upstream) (u : User) (username : String),
      (search_user_endpoint client ⟨some u⟩ username).2 =
        [.user_info_by_username (lstripAt username)]) := by
  refine ⟨?_, ?_, ?_, ?_⟩
  · intro c cs h; simp [lstripAt, lstripAtAux, h]
  · intro cs; simp [lstripAt, lstripAtAux]
  · intro client u username text; rfl
  · intro client u username
    cases h : client.user_info_by_username (lstripAt username) <;>
      simp [search_user_endpoint, msg_search_user, h]

/-- C9 witness: a handle without a leading `@` is unchanged, a leading `@`
is removed, and the search handler looks up the stripped handle. -/
theorem handle_strip_all_leading_at_witness :
    lstripAt ⟨'b' :: ['o', 'b']⟩ = ⟨'b' :: ['o', 'b']⟩ ∧
    lstripAt ⟨'@' :: ['b']⟩ = lstripAt ⟨['b']⟩ ∧
    (search_user_endpoint sampleUpstream ⟨some sampleUser⟩ "@alice").2 =
      [.user_info_by_username (lstripAt "@alice")] :=
  ⟨handle_strip_all_leading_at.1 'b' ['o', 'b'] (by decide),
   handle_strip_all_leading_at.2.1 ['b'],
   handle_strip_all_leading_at.2.2.2 sampleUpstream sampleUser "@alice"⟩

/-- C10: a failed login leaves `InstagramClient._logged_in_user` exactly as
it was — whatever the failure reason, the previous Identity (or its
absence) is preserved. -/
theorem login_failure_preserves_identity
    (env : AuthEnv) (store : SessionStore) (st : ClientState)
    (username password : String)
    (h : (client_login env store st username password).success = false) :
    (client_login env store st username password).state = st := by
  unfold client_login at h ⊢
  simp only [] at h ⊢
  simp [h]

/-- C10 witness: a bad-password fresh login starting from an installed
Identity fails and leaves that Identity installed. -/
theorem login_failure_preserves_identity_witness :
    (client_login ⟨false, .timelineFail, .badPassword, true⟩ ⟨none⟩
        ⟨some sampleUser⟩ "u" "p").success = false ∧
    (client_login ⟨false, .timelineFail, .badPassword, true⟩ ⟨none⟩
        ⟨some sampleUser⟩ "u" "p").state = ⟨some sampleUser⟩ :=
  ⟨by decide,
   login_failure_preserves_identity _ _ _ _ _ (by decide)⟩

/-- C2: when the encrypted-password field of a login request is non-empty,
the decrypted payload is the only password ever passed to
`instagram_client.login` (any plaintext password present is ignored), and a
decryption failure yields HTTP 400 with no login attempt at all. -/
theorem login_encrypted_password_precedence
    (decrypt : String → Option String) (env : AuthEnv) (store : SessionStore)
    (st : ClientState) (req : LoginRequest)
    (henc : req.encrypted_password ≠ "") :
    (∀ p, decrypt req.encrypted_password = some p →
      (login_endpoint decrypt env store st req).loginCalls =
        [(req.username, p)]) ∧
    (decrypt req.encrypted_password = none →
      (login_endpoint decrypt env store st req).http =
        .httpError 400 "Failed to decrypt password" ∧
      (login_endpoint decrypt env store st req).loginCalls = []) := by
  constructor
  · intro p hp
    unfold login_endpoint
    simp only [if_pos henc, hp]
    cases hs : (client_login env store st req.username p).success <;>
      simp [hs]
  · intro hd
    unfold login_endpoint
    simp [if_pos henc, hd]

/-- C2 witness: with a decryptable payload, login is attempted exactly once
with the decrypted password (not the plaintext one also present); with an
undecryptable payload, the handler answers 400 and never attempts login. -/
theorem login_encrypted_password_precedence_witness :
    (login_endpoint (fun s => if s = "CIPHER" then some "secret" else none)
        ⟨false, .timelineFail, .badPassword, true⟩ ⟨none⟩ ⟨none⟩
        ⟨"alice", "plaintext", "CIPHER"⟩).loginCalls =
      [("alice", "secret")] ∧
    (login_endpoint (fun _ => none)
        ⟨false, .timelineFail, .badPassword, true⟩ ⟨none⟩ ⟨none⟩
        ⟨"alice", "plaintext", "BAD"⟩).http =
      .httpError 400 "Failed to decrypt password" ∧
    (login_endpoint (fun _ => none)
        ⟨false, .timelineFail, .badPassword, true⟩ ⟨none⟩ ⟨none⟩
        ⟨"alice", "plaintext", "BAD"⟩).loginCalls = [] :=
  ⟨(login_encrypted_password_precedence _ _ _ _ _ (by decide)).1 "secret"
      (by decide),
   ((login_encrypted_password_precedence _ _ _ _ _ (by decide)).2 rfl).1,
   ((login_encrypted_password_precedence _ _ _ _ _ (by decide)).2 rfl).2⟩

/-- C3: when a saved session blob exists, restores, and the validity probe
succeeds, `auth.login` returns success with the identity parsed from the
probe response, sends no password upstream (no `client.login` event), and
performs no session save, leaving the stored blob unchanged. -/
theorem login_valid_session_skips_password_and_save
    (env : AuthEnv) (store : SessionStore) (username password : String)
    (info : IGUserInfo)
    (hblob : store.blob.isSome = true) (hparse : env.load_parse_ok = true)
    (hprobe : env.probe = .ok info) :
    auth_login env store username password =
      { success := true, error := none, user := some (parse_user info)
        store := store, trace := [.getTimelineFeed, .accountInfo] } ∧
    (auth_login env store username password).store = store ∧
    (∀ u p, AuthEvent.clientLogin u p ∉
      (auth_login env store username password).trace) ∧
    AuthEvent.sessionSave ∉ (auth_login env store username password).trace := by
  have hmain : auth_login env store username password =
      { success := true, error := none, user := some (parse_user info)
        store := store, trace := [.getTimelineFeed, .accountInfo] } := by
    unfold auth_login
    simp [load_session, hblob, hparse, hprobe]
  refine ⟨hmain, by rw [hmain], ?_, by rw [hmain]; simp⟩
  intro u p
  rw [hmain]
  simp

/-- C3 witness: with a stored blob, a parsing restore, and a successful
probe, login succeeds with the probed identity and the blob is unchanged. -/
theorem login_valid_session_skips_password_and_save_witness :
    auth_login ⟨true, .ok sampleInfo, .badPassword, true⟩ ⟨some "blob"⟩
        "u" "pw" =
      { success := true, error := none, user := some (parse_user sampleInfo)
        store := ⟨some "blob"⟩
        trace := [.getTimelineFeed, .accountInfo] } :=
  (login_valid_session_skips_password_and_save
    ⟨true, .ok sampleInfo, .badPassword, true⟩ ⟨some "blob"⟩ "u" "pw"
    sampleInfo rfl rfl rfl).1

/-- C4 counterexample: for the record whose sender identifier is the
integer `0` and the Identity identifier `"0"`, the claim predicts
`is_sent_by_viewer = true` (identifier present and equal as strings), but
the source compares under Python truthiness (`if logged_in_user_pk and
msg.user_id`) and yields `false`. -/
theorem viewer_flag_counterexample :
    sentByViewerSpec c4_msg (some "0") ∧
    (parse_message c4_msg (some "0")).is_sent_by_viewer = false :=
  ⟨⟨"0", rfl, 0, rfl, by decide⟩, by decide⟩

/-- C4 (amended): `is_sent_by_viewer` is true iff the Identity identifier
is present and non-empty, the upstream sender identifier is present and
nonzero, and the sender identifier rendered as a string equals the Identity
identifier; in particular it is false whenever the Identity identifier is
absent. -/
theorem viewer_flag_characterization
    (msg : IGDirectMessage) (pkOpt : Option String) :
    (parse_message msg pkOpt).is_sent_by_viewer = true ↔
      (∃ p, pkOpt = some p ∧ p ≠ "" ∧
        ∃ uid, msg.user_id = some uid ∧ uid ≠ 0 ∧ toString uid = p) := by
  rcases pkOpt with _ | p <;> rcases huid : msg.user_id with _ | uid <;>
    simp [parse_message, strTruthy, intTruthy, huid]
  by_cases hp : p = "" <;> by_cases hu : uid = 0 <;> simp [hp, hu]

/-- C5: media fields are populated iff the record carries a media
reference; the type is `"video"` exactly when a (non-empty) video URL is
present and `"photo"` otherwise, and the URL prefers the video URL, then
the thumbnail URL, then the empty string. -/
theorem media_fields_population
    (msg : IGDirectMessage) (pk : Option String) :
    ((parse_message msg pk).media_type.isSome ↔ msg.media.isSome) ∧
    ((parse_message msg pk).media_url.isSome ↔ msg.media.isSome) ∧
    ∀ m, msg.media = some m →
      ((∀ v, m.video_url = some v → v ≠ "" →
          (parse_message msg pk).media_type = some "video" ∧
          (parse_message msg pk).media_url = some v) ∧
       ((m.video_url = none ∨ m.video_url = some "") →
          (parse_message msg pk).media_type = some "photo") ∧
       (∀ t, (m.video_url = none ∨ m.video_url = some "") →
          m.thumbnail_url = some t → t ≠ "" →
          (parse_message msg pk).media_url = some t) ∧
       ((m.video_url = none ∨ m.video_url = some "") →
          (m.thumbnail_url = none ∨ m.thumbnail_url = some "") →
          (parse_message msg pk).media_url = some "")) := by
  refine ⟨?_, ?_, ?_⟩
  · cases hm : msg.media <;> simp [parse_message, hm]
  · cases hm : msg.media <;> simp [parse_message, hm]
  · intro m hm
    refine ⟨?_, ?_, ?_, ?_⟩
    · intro v hv hne
      constructor <;> simp [parse_message, hm, hv, strTruthy, truthyOr, hne]
    · rintro (hv | hv) <;> simp [parse_message, hm, hv, strTruthy]
    · rintro t (hv | hv) ht htne <;>
        simp [parse_message, hm, hv, ht, strTruthy, truthyOr, htne]
    · rintro (hv | hv) (ht | ht) <;>
        simp [parse_message, hm, hv, ht, strTruthy, truthyOr]

/-- C5 witness: a media record with only a thumbnail URL and no video URL
yields `media_type = "photo"` and `media_url` = the thumbnail URL. -/
theorem media_fields_population_witness :
    (parse_message c5_msg none).media_type = some "photo" ∧
    (parse_message c5_msg none).media_url = some "thumb" :=
  ⟨((media_fields_population c5_msg none).2.2
      ⟨none, some "thumb"⟩ rfl).2.1 (Or.inl rfl),
   ((media_fields_population c5_msg none).2.2
      ⟨none, some "thumb"⟩ rfl).2.2.1 "thumb" (Or.inl rfl) rfl (by decide)⟩

/-- C6 counterexample: the unrecognized item-type tag `"poll"` is passed
through verbatim by message normalization and does not become
`"unknown"`. -/
theorem item_type_passthrough_counterexample :
    (parse_message c6_msg none).item_type = "poll" ∧
    (parse_message c6_msg none).item_type ≠ "unknown" :=
  ⟨by decide, by decide⟩

/-- C6 (amended): message normalization sets `item_type` to `"unknown"`
exactly when the upstream tag is missing or empty; any non-empty tag —
recognized or not — is passed through verbatim. -/
theorem item_type_normalization
    (msg : IGDirectMessage) (pk : Option String) :
    ((msg.item_type = none ∨ msg.item_type = some "") →
      (parse_message msg pk).item_type = "unknown") ∧
    (∀ t, msg.item_type = some t → t ≠ "" →
      (parse_message msg pk).item_type = t) := by
  constructor
  · rintro (h | h) <;> simp [parse_message, truthyOr, h]
  · intro t h hne; simp [parse_message, truthyOr, h, hne]

/-- C6 witness: a missing tag normalizes to `"unknown"`, while the
non-empty tag `"poll"` is kept. -/
theorem item_type_normalization_witness :
    (parse_message c4_msg (some "x")).item_type = "unknown" ∧
    (parse_message c6_msg none).item_type = "poll" :=
  ⟨(item_type_normalization c4_msg (some "x")).1 (Or.inl rfl),
   (item_type_normalization c6_msg none).2 "poll" rfl (by decide)⟩

/-- C7: thread preview synthesis — the lookup table maps each listed
item-type tag to its fixed label; the preview timestamp is the thread's
last-activity timestamp when present, otherwise the most recent message's
timestamp; the preview text is the most recent message's (non-empty) text
when present, otherwise the table label for its normalized item-type with
`"[<item-type>]"` for a tag without a table entry; and a thread with no
messages has neither preview text nor preview type. -/
theorem preview_synthesis (thread : IGDirectThread) :
    (type_previews "media" = some "Photo" ∧
     type_previews "video" = some "Video" ∧
     type_previews "reel_share" = some "Shared Reel" ∧
     type_previews "story_share" = some "Shared Story" ∧
     type_previews "media_share" = some "Shared Post" ∧
     type_previews "voice_media" = some "Voice Message" ∧
     type_previews "animated_media" = some "GIF" ∧
     type_previews "link" = some "Link" ∧
     type_previews "like" = some "Liked") ∧
    (∀ ts, thread.last_activity_at = some ts →
      (parse_thread_preview thread).last_message_timestamp = some ts) ∧
    (thread.last_activity_at = none →
      ∀ m ms, thread.messages = m :: ms →
        (parse_thread_preview thread).last_message_timestamp =
          some m.timestamp) ∧
    (thread.messages = [] →
      (parse_thread_preview thread).last_message_text = none ∧
      (parse_thread_preview thread).last_message_type = none) ∧
    (∀ m ms, thread.messages = m :: ms →
      (∀ s, m.text = some s → s ≠ "" →
        (parse_thread_preview thread).last_message_text = some s) ∧
      ((m.text = none ∨ m.text = some "") →
        (parse_thread_preview thread).last_message_text =
          some ((type_previews (truthyOr m.item_type "unknown")).getD
            ("[" ++ truthyOr m.item_type "unknown" ++ "]")))) := by
  refine ⟨⟨rfl, rfl, rfl, rfl, rfl, rfl, rfl, rfl, rfl⟩, ?_, ?_, ?_, ?_⟩
  · intro ts hts
    cases hms : thread.messages <;> simp [parse_thread_preview, hms, hts]
  · intro hts m ms hms
    simp [parse_thread_preview, hms, hts]
  · intro hms
    constructor <;> simp [parse_thread_preview, hms]
  · intro m ms hms
    constructor
    · intro s hs hne
      simp [parse_thread_preview, hms, hs, strTruthy, hne]
    · rintro (h | h) <;> simp [parse_thread_preview, hms, h, strTruthy]

/-- C7 witness: an empty-text `reel_share` previews as "Shared Reel" with
the message timestamp (no last-activity timestamp present); an unlisted
`"poll"` previews as "[poll]" with the last-activity timestamp preferred;
a thread without messages has no preview text or type. -/
theorem preview_synthesis_witness :
    (parse_thread_preview c7_reel_thread).last_message_text =
      some "Shared Reel" ∧
    (parse_thread_preview c7_reel_thread).last_message_timestamp = some 3 ∧
    (parse_thread_preview c7_poll_thread).last_message_text = some "[poll]" ∧
    (parse_thread_preview c7_poll_thread).last_message_timestamp = some 11 ∧
    (parse_thread_preview c7_empty_thread).last_message_text = none ∧
    (parse_thread_preview c7_empty_thread).last_message_type = none := by
  have h1 := ((preview_synthesis c7_reel_thread).2.2.2.2 _ _ rfl).2
    (Or.inl rfl)
  have h2 := (preview_synthesis c7_reel_thread).2.2.1 rfl _ _ rfl
  have h3 := ((preview_synthesis c7_poll_thread).2.2.2.2 _ _ rfl).2
    (Or.inl rfl)
  have h4 := (preview_synthesis c7_poll_thread).2.1 11 rfl
  have h5 := (preview_synthesis c7_empty_thread).2.2.2.1 rfl
  refine ⟨?_, h2, ?_, h4, h5.1, h5.2⟩
  · rw [h1]; decide
  · rw [h3]; decide
